import Mathlib

/-!
Verification of the Stage 3 asset valuation engine of the trade-analysis
pipeline (stage3_cache_values.py, constants.py, utils/validators.py).

Modelling conventions:
- Dates are day numbers (days since 2025-01-01).  The source parses
  "YYYY-MM-DD" strings with strptime and compares/offsets datetimes at
  day granularity, so the day-number model is order- and
  arithmetic-faithful.
- Point values (the value_2qb column) are modelled as Int.
- A pandas value table is a list of rows (player name, value_2qb); the
  lookup df[df["player"].str.contains(pat, case=False, na=False)].iloc[0]
  is the first row whose name contains the pattern case-insensitively.
  (The source passes literal player and pick names to str.contains; the
  regex interpretation of the pattern coincides with plain substring
  search for the names exercised here.)
- String operations of Python (split, strip, replace, int) are modelled
  by structural functions on character lists so that every definition
  evaluates inside the kernel.
- Network and file effects (the Git commit directory, fetching a value
  table at a commit) are modelled as explicit environment data; the
  memoization caches of the source are semantically transparent.
- Python exceptions that the source does not catch are modelled with
  Except.error; per-row sentinel results stay Except.ok.
- The metadata diagnostic string of a valuation record is omitted from
  the model; no verified property depends on it.
-/

namespace TradeValuation

/-! String primitives, modelling the Python operations used by Stage 3. -/

/-- Whether pat occurs as a contiguous sublist of l. -/
def listInfixOf (pat : List Char) : List Char → Bool
  | [] => pat.isEmpty
  | b :: bs => pat.isPrefixOf (b :: bs) || listInfixOf pat bs

/-- Lower-case a string character by character (models str casefolding as
used by pandas case=False matching on ASCII names). -/
def strLower (s : String) : String :=
  (s.data.map Char.toLower).asString

/-- Case-insensitive substring test: models
pandas Series.str.contains(pat, case=False) on one cell. -/
def strContains (hay pat : String) : Bool :=
  listInfixOf (strLower pat).data (strLower hay).data

/-- Case-sensitive substring test: models the Python expression pat in hay. -/
def strContainsCS (hay pat : String) : Bool :=
  listInfixOf pat.data hay.data

/-- Fuel-based splitter on a non-empty separator; fuel is the input length,
so the fuel-exhausted branch is unreachable.  Models str.split(sep). -/
def splitOnAux (sep : List Char) : Nat → List Char → List (List Char)
  | _, [] => [[]]
  | 0, l => [l]
  | Nat.succ fuel, c :: cs =>
    if sep.isPrefixOf (c :: cs) then
      [] :: splitOnAux sep fuel (List.drop (sep.length - 1) cs)
    else
      match splitOnAux sep fuel cs with
      | [] => [[c]]
      | h :: t => (c :: h) :: t

/-- Python s.split(sep) for a non-empty separator string. -/
def splitOnStr (s sep : String) : List String :=
  (splitOnAux sep.data s.data.length s.data).map List.asString

/-- Fuel-based replacement of every occurrence of a non-empty pattern;
models str.replace(pat, rep). -/
def replaceAux (pat rep : List Char) : Nat → List Char → List Char
  | _, [] => []
  | 0, l => l
  | Nat.succ fuel, c :: cs =>
    if pat.isPrefixOf (c :: cs) then
      rep ++ replaceAux pat rep fuel (List.drop (pat.length - 1) cs)
    else
      c :: replaceAux pat rep fuel cs

/-- Python s.replace(pat, rep) for a non-empty pattern string. -/
def replaceStr (s pat rep : String) : String :=
  (replaceAux pat.data rep.data s.data.length s.data).asString

/-- Split on whitespace runs, dropping empty parts: Python s.split(). -/
def wordsAux (cur : List Char) : List Char → List (List Char)
  | [] => if cur.isEmpty then [] else [cur.reverse]
  | c :: cs =>
    if c.isWhitespace then
      if cur.isEmpty then wordsAux [] cs else cur.reverse :: wordsAux [] cs
    else
      wordsAux (c :: cur) cs

/-- Python s.split() (whitespace, empties dropped). -/
def splitWhitespace (s : String) : List String :=
  (wordsAux [] s.data).map List.asString

/-- Python s.strip(). -/
def trimChars (l : List Char) : List Char :=
  ((l.dropWhile Char.isWhitespace).reverse.dropWhile Char.isWhitespace).reverse

/-- Accumulate decimal digits; none on the first non-digit. -/
def digitsAux (acc : Nat) : List Char → Option Nat
  | [] => some acc
  | c :: cs =>
    if c.isDigit then digitsAux (acc * 10 + (c.toNat - 48)) cs else none

/-- All-digit non-empty parse to Nat. -/
def digitsToNat? : List Char → Option Nat
  | [] => none
  | c :: cs => digitsAux 0 (c :: cs)

/-- Python int(s) on an already stripped string: optional sign then
decimal digits, error (none) otherwise. -/
def parseIntChars : List Char → Option Int
  | '-' :: rest => (digitsToNat? rest).map (fun n => -(n : Int))
  | '+' :: rest => (digitsToNat? rest).map Int.ofNat
  | l => (digitsToNat? l).map Int.ofNat

/-- First n characters: Python s[:n]. -/
def takeStr (s : String) (n : Nat) : String :=
  (s.data.take n).asString

/-! Value tables. -/

/-- One row of a DynastyProcess value table (columns player, value_2qb). -/
structure ValueRow where
  player : String
  value_2qb : Int
deriving DecidableEq, Repr

/-- A value table: the current table or one historical snapshot. -/
abbrev ValueTable := List ValueRow

/-- First-match fuzzy lookup:
df[df["player"].str.contains(pat, case=False, na=False)].iloc[0]["value_2qb"],
returning none when the match set is empty. -/
def lookupValue (df : ValueTable) (pat : String) : Option Int :=
  (df.find? (fun r => strContains r.player pat)).map ValueRow.value_2qb

/-! Constants from constants.py. -/

/-- datetime(2025, 5, 5) as a day number (days since 2025-01-01:
31 + 28 + 31 + 30 + 4 = 124). -/
def DRAFT_COMPLETION_DATE : Int := 124

/-- datetime(2025, 9, 3) as a day number (days since 2025-01-01:
31 + 28 + 31 + 30 + 31 + 30 + 31 + 31 + 2 = 245). -/
def SEASON_START_DATE : Int := 245

/-- FAAB_VALUE_PER_DOLLAR = 1. -/
def FAAB_VALUE_PER_DOLLAR : Int := 1

/-- GIT_COMMIT_SEARCH_DAYS = 7 (config.validation.git_commit_search_days). -/
def GIT_COMMIT_SEARCH_DAYS : Nat := 7

/-- MAX_ZERO_VALUE_PCT = 0.10 (config.validation.max_zero_value_pct and the
validator default), written with mkRat so it evaluates in the kernel. -/
def MAX_ZERO_VALUE_PCT : ℚ := mkRat 1 10

/-- ROUND_ORDINALS dictionary. -/
def ROUND_ORDINALS (n : Int) : Option String :=
  if n = 1 then some "1st"
  else if n = 2 then some "2nd"
  else if n = 3 then some "3rd"
  else if n = 4 then some "4th"
  else if n = 5 then some "5th"
  else none

/-- PickTier.get_value from constants.py. -/
def PickTier.get_value (pick_in_round : Int) : Int :=
  if pick_in_round ≤ 4 then 5430
  else if pick_in_round ≤ 8 then 2558
  else 1232

/-- PickTier.get_tier_name from constants.py. -/
def PickTier.get_tier_name (pick_in_round : Int) : String :=
  if pick_in_round ≤ 4 then "Early"
  else if pick_in_round ≤ 8 then "Mid"
  else "Late"

/-! Pick lineage (the PICK_LINEAGE table built at module load). -/

/-- One lineage entry: which player was drafted with a pick slot. -/
structure LineageEntry where
  final_owner : String
  pick_in_round : Int
  player : String
  overall_pick : Int
deriving DecidableEq, Repr

/-- PICK_LINEAGE: (origin_owner, round) to the list of lineage entries,
as an association list with distinct keys (a Python dict). -/
abbrev PickLineage := List ((String × Int) × List LineageEntry)

/-- PICK_LINEAGE.get(key, []). -/
def lineageGet (L : PickLineage) (key : String × Int) : List LineageEntry :=
  (L.lookup key).getD []

/-- Python f-string padding {n:02d} for the slot part of an exact pick name. -/
def pad2 (n : Int) : String :=
  if 0 ≤ n ∧ n < 10 then "0" ++ toString n else toString n

/-- Round-number extraction int(pick_name.split("Round")[1].strip());
none models the caught parse exception. -/
def parseRound2025 (pick_name : String) : Option Int :=
  match (splitOnStr pick_name "Round").get? 1 with
  | none => none
  | some s => parseIntChars (trimChars s.data)

/-- Result of one valuator call: (value, source_description).  The third
metadata component of the source tuple is omitted (see file comment). -/
structure ValPair where
  value : Int
  source : String
deriving DecidableEq, Repr

/-- get_2025_pick_value from stage3_cache_values.py.  The module-global
PICK_LINEAGE is passed explicitly; trade_date is already a day number. -/
def get_2025_pick_value (L : PickLineage) (pick_name origin_owner : String)
    (trade_dt : Int) (df_values : ValueTable) (is_current : Bool) : ValPair :=
  match parseRound2025 pick_name with
  | none => ⟨0, "Parse error"⟩
  | some round_num =>
    match lineageGet L (origin_owner, round_num) with
    | [] => ⟨0, "No lineage"⟩
    | lineage :: _ =>
      let player := lineage.player
      let pick_in_round := lineage.pick_in_round
      if trade_dt < DRAFT_COMPLETION_DATE then
        if is_current then
          match lookupValue df_values player with
          | some v => ⟨v, "Player:" ++ player⟩
          | none => ⟨0, "Player not found:" ++ player⟩
        else
          let exact_pick :=
            "2025 Pick " ++ toString round_num ++ "." ++ pad2 pick_in_round
          match lookupValue df_values exact_pick with
          | some v => ⟨v, "Git:" ++ exact_pick⟩
          | none =>
            if round_num = 1 then
              ⟨PickTier.get_value pick_in_round,
               "Tier:" ++ PickTier.get_tier_name pick_in_round ++ " 1st"⟩
            else
              let ordinal := (ROUND_ORDINALS round_num).getD (toString round_num ++ "th")
              match lookupValue df_values ("2026 " ++ ordinal) with
              | some v => ⟨v, "Fallback:Generic " ++ ordinal⟩
              | none => ⟨0, "Not found"⟩
      else
        match lookupValue df_values player with
        | some v => ⟨v, "Player:" ++ player ++ " (post-draft)"⟩
        | none => ⟨0, "Player not found:" ++ player⟩

/-! Weekly projection columns (get_available_weeks and friends). -/

/-- One row of weekly_2026_pick_projections_expanded.csv: the Team cell plus
the named numeric columns of that row. -/
structure TeamProj where
  team : String
  cols : List (String × Int)
deriving DecidableEq, Repr

/-- Week number of a column matching re.match("Week(\\d+)_2026_" + round_name,
col).  re.match anchors at the start only, so trailing characters after the
round name are allowed. -/
def colWeek (round_name col : String) : Option Int :=
  if "Week".data.isPrefixOf col.data then
    let rest := col.data.drop 4
    let digits := rest.takeWhile Char.isDigit
    let tail := rest.dropWhile Char.isDigit
    if digits ≠ [] ∧ ("_2026_" ++ round_name).data.isPrefixOf tail then
      (digitsToNat? digits).map Int.ofNat
    else none
  else none

/-- Insert into a sorted list (ascending). -/
def insertSorted (x : Int) : List Int → List Int
  | [] => [x]
  | y :: ys => if x ≤ y then x :: y :: ys else y :: insertSorted x ys

/-- sorted(...) from Python. -/
def sortInts (l : List Int) : List Int :=
  l.foldr insertSorted []

/-- get_available_weeks from stage3_cache_values.py. -/
def get_available_weeks (team_row : TeamProj) (round_name : String) : List Int :=
  sortInts (team_row.cols.filterMap (fun c => colWeek round_name c.1))

/-- max of a list (only used on non-empty lists). -/
def listMax : List Int → Int
  | [] => 0
  | a :: as => as.foldl max a

/-- min of a list (only used on non-empty lists). -/
def listMin : List Int → Int
  | [] => 0
  | a :: as => as.foldl min a

/-- get_best_week_column from stage3_cache_values.py; none models the
raised ValueError when no weekly column exists. -/
def get_best_week_column (team_row : TeamProj) (round_name : String)
    (target_week : Int) : Option (String × Int) :=
  let available := get_available_weeks team_row round_name
  if available.isEmpty then none
  else
    let selected :=
      if target_week ∈ available then target_week
      else if available.any (fun w => w ≤ target_week) then
        listMax (available.filter (fun w => w ≤ target_week))
      else
        listMin available
    some ("Week" ++ toString selected ++ "_2026_" ++ round_name, selected)

/-- get_latest_week_column from stage3_cache_values.py. -/
def get_latest_week_column (team_row : TeamProj) (round_name : String) :
    Option (String × Int) :=
  let available := get_available_weeks team_row round_name
  if available.isEmpty then none
  else
    let latest := listMax available
    some ("Week" ++ toString latest ++ "_2026_" ++ round_name, latest)

/-- get_2026_plus_pick_value from stage3_cache_values.py.  The module-global
PICK_PROJECTIONS table is passed explicitly.  Except.error models the
uncaught ValueError of int(round_num) on a malformed round token and the
uncaught KeyError of a projection column access; the caught ValueError of
get_best_week_column falls through to the generic search as in the source. -/
def get_2026_plus_pick_value (projections : List TeamProj)
    (pick_name origin_owner : String) (trade_dt : Int)
    (df_values : ValueTable) : Except String ValPair :=
  let parts := splitWhitespace pick_name
  match parts.get? 0, parts.get? 1, parts.get? 2 with
  | some year, some kw, some round_str =>
    if kw = "Round" then
      match parseIntChars round_str.data with
      | none => .error "ValueError: invalid round token"
      | some round_num =>
        -- 2026 picks with team projections
        let attempt2026 : Except String (Option ValPair) :=
          if strContainsCS pick_name "2026" ∧ origin_owner ≠ "" then
            let days := trade_dt - SEASON_START_DATE
            let week := max 2 (days.fdiv 7 + 1)
            match ROUND_ORDINALS round_num with
            | some round_name =>
              match projections.find? (fun t => t.team = origin_owner) with
              | some team_row =>
                match get_best_week_column team_row round_name week with
                | some (column_name, selected_week) =>
                  match team_row.cols.lookup column_name with
                  | some v =>
                    .ok (some ⟨v, "Projection:Week" ++ toString selected_week
                                   ++ "_" ++ round_name⟩)
                  | none => .error "KeyError: projection column missing"
                | none => .ok none
              | none => .ok none
            | none => .ok none
          else .ok none
        match attempt2026 with
        | .error e => .error e
        | .ok (some vp) => .ok vp
        | .ok none =>
          -- 2027/2028 picks: latest available 2026 projection as proxy
          let attempt2027 : Except String (Option ValPair) :=
            if (strContainsCS pick_name "2027" ∨ strContainsCS pick_name "2028")
                ∧ origin_owner ≠ "" then
              match ROUND_ORDINALS round_num with
              | some round_name =>
                match projections.find? (fun t => t.team = origin_owner) with
                | some team_row =>
                  match get_latest_week_column team_row round_name with
                  | some (column_name, latest_week) =>
                    match team_row.cols.lookup column_name with
                    | some v =>
                      .ok (some ⟨v, "Projection:Week" ++ toString latest_week
                                     ++ "_2026_" ++ round_name⟩)
                    | none => .error "KeyError: projection column missing"
                  | none => .ok none
                | none => .ok none
              | none => .ok none
            else .ok none
          match attempt2027 with
          | .error e => .error e
          | .ok (some vp) => .ok vp
          | .ok none =>
            -- generic DynastyProcess fallback
            let ordinal := (ROUND_ORDINALS round_num).getD (toString round_num ++ "th")
            let search := year ++ " " ++ ordinal
            match lookupValue df_values search with
            | some v => .ok ⟨v, "Fallback:Generic:" ++ search⟩
            | none => .ok ⟨0, "Not found"⟩
    else
      .ok ⟨0, "Parse error"⟩
  | _, _, _ => .ok ⟨0, "Parse error"⟩

/-! The orchestrator cache_asset_values and the Stage 3 main flow. -/

/-- One input row of asset_transactions.csv.  origin_owner is "" when the
column is empty (players and FAAB; Stage 2 writes a non-empty owner name
for every pick row). -/
structure AssetRow where
  asset_name : String
  asset_type : String
  trade_date : Int
  trade_id : String
  trade_type : String
  receiving_team : String
  giving_team : String
  origin_owner : String
deriving DecidableEq, Repr

/-- One output row of asset_values_cache.csv (metadata column omitted,
see file comment). -/
structure ValuationRecord where
  asset_name : String
  asset_type : String
  trade_date : Int
  trade_id : String
  trade_type : String
  receiving_team : String
  giving_team : String
  origin_owner : String
  value_at_trade : Int
  value_current : Int
  value_source_at_trade : String
  value_source_current : String
deriving DecidableEq, Repr

/-- The run environment: the current value table, the Git commit
directory (date to sha, a dict with distinct keys), the snapshot fetch
service (get_values_from_commit; none = fetch failed), the pick lineage
and the weekly projection table. -/
structure Env where
  df_current : ValueTable
  commits : List (Int × String)
  fetchCommit : String → Option ValueTable
  lineage : PickLineage
  projections : List TeamProj

/-- The search offsets 1..GIT_COMMIT_SEARCH_DAYS used by the commit search
loops (range(1, config.validation.git_commit_search_days + 1)). -/
def searchOffsets : List Int :=
  (List.range GIT_COMMIT_SEARCH_DAYS).map (fun i => (i : Int) + 1)

/-- The commit-selection block of cache_asset_values: exact date, else the
first hit scanning backward day by day, else the first hit scanning
forward day by day, else none. -/
def findCommitSha (commits : List (Int × String)) (trade_dt : Int) :
    Option String :=
  match commits.lookup trade_dt with
  | some sha => some sha
  | none =>
    match searchOffsets.findSome? (fun d => commits.lookup (trade_dt - d)) with
    | some sha => some sha
    | none => searchOffsets.findSome? (fun d => commits.lookup (trade_dt + d))

/-- The historical table resolved for a trade date: the fetched table of
the selected commit, or none when no commit was selected or the fetch
failed. -/
def histTable (env : Env) (trade_dt : Int) : Option ValueTable :=
  (findCommitSha env.commits trade_dt).bind env.fetchCommit

/-- int(asset_name.replace("$", "").replace(" FAAB", "")). -/
def parseFaabAmount (s : String) : Option Int :=
  parseIntChars (replaceStr (replaceStr s "$" "") " FAAB" "").data

/-- The loop body of cache_asset_values for one asset row.  Except.error
models the exceptions the loop does not catch (malformed FAAB amount,
ValueError and KeyError inside get_2026_plus_pick_value), which abort the
whole run in the source. -/
def valueOneAsset (env : Env) (row : AssetRow) : Except String ValuationRecord :=
  if row.asset_type = "faab" then
    match parseFaabAmount row.asset_name with
    | none => .error "ValueError: invalid FAAB amount"
    | some amount =>
      let value := amount * FAAB_VALUE_PER_DOLLAR
      .ok { asset_name := row.asset_name, asset_type := row.asset_type,
            trade_date := row.trade_date, trade_id := row.trade_id,
            trade_type := row.trade_type,
            receiving_team := row.receiving_team,
            giving_team := row.giving_team,
            origin_owner := row.origin_owner,
            value_at_trade := value, value_current := value,
            value_source_at_trade := "FAAB", value_source_current := "FAAB" }
  else
    let commit_sha := findCommitSha env.commits row.trade_date
    let df_hist := commit_sha.bind env.fetchCommit
    if row.asset_type = "pick" then
      if strContainsCS row.asset_name "2025 Round" ∧ row.origin_owner ≠ "" then
        let df_for_at_trade := df_hist.getD env.df_current
        let vat := get_2025_pick_value env.lineage row.asset_name
          row.origin_owner row.trade_date df_for_at_trade false
        let vcur := get_2025_pick_value env.lineage row.asset_name
          row.origin_owner row.trade_date env.df_current true
        .ok { asset_name := row.asset_name, asset_type := row.asset_type,
              trade_date := row.trade_date, trade_id := row.trade_id,
              trade_type := row.trade_type,
              receiving_team := row.receiving_team,
              giving_team := row.giving_team,
              origin_owner := row.origin_owner,
              value_at_trade := vat.value, value_current := vcur.value,
              value_source_at_trade := vat.source,
              value_source_current := vcur.source }
      else if (strContainsCS row.asset_name "2026"
                ∨ strContainsCS row.asset_name "2027"
                ∨ strContainsCS row.asset_name "2028")
              ∧ row.origin_owner ≠ "" then
        let df_for_at_trade := df_hist.getD env.df_current
        match get_2026_plus_pick_value env.projections row.asset_name
            row.origin_owner row.trade_date df_for_at_trade with
        | .error e => .error e
        | .ok vat =>
          match get_2026_plus_pick_value env.projections row.asset_name
              row.origin_owner row.trade_date env.df_current with
          | .error e => .error e
          | .ok vcur =>
            .ok { asset_name := row.asset_name, asset_type := row.asset_type,
                  trade_date := row.trade_date, trade_id := row.trade_id,
                  trade_type := row.trade_type,
                  receiving_team := row.receiving_team,
                  giving_team := row.giving_team,
                  origin_owner := row.origin_owner,
                  value_at_trade := vat.value, value_current := vcur.value,
                  value_source_at_trade := vat.source,
                  value_source_current := vcur.source }
      else
        .ok { asset_name := row.asset_name, asset_type := row.asset_type,
              trade_date := row.trade_date, trade_id := row.trade_id,
              trade_type := row.trade_type,
              receiving_team := row.receiving_team,
              giving_team := row.giving_team,
              origin_owner := row.origin_owner,
              value_at_trade := 0, value_current := 0,
              value_source_at_trade := "Unknown pick",
              value_source_current := "Unknown pick" }
    else
      -- players (every non-pick, non-FAAB row)
      let atTrade : Int × String :=
        match commit_sha with
        | some sha =>
          match env.fetchCommit sha with
          | some df_h =>
            match lookupValue df_h row.asset_name with
            | some v => (v, "Git:" ++ takeStr sha 7)
            | none => (0, "Not found")
          | none => (0, "No Git commit")
        | none => (0, "No Git commit")
      let current : Int × String :=
        match lookupValue env.df_current row.asset_name with
        | some v => (v, "DynastyProcess")
        | none => (0, "Not found")
      .ok { asset_name := row.asset_name, asset_type := row.asset_type,
            trade_date := row.trade_date, trade_id := row.trade_id,
            trade_type := row.trade_type,
            receiving_team := row.receiving_team,
            giving_team := row.giving_team,
            origin_owner := row.origin_owner,
            value_at_trade := atTrade.1, value_current := current.1,
            value_source_at_trade := atTrade.2,
            value_source_current := current.2 }

/-- cache_asset_values: value every row in order, also accumulating the
zero_value_count the source logs (incremented only on the non-FAAB path,
because the FAAB branch continues before the zero tracking). -/
def cache_asset_values (env : Env) : List AssetRow →
    Except String (List ValuationRecord × Nat)
  | [] => .ok ([], 0)
  | row :: rest =>
    match valueOneAsset env row with
    | .error e => .error e
    | .ok v =>
      match cache_asset_values env rest with
      | .error e => .error e
      | .ok (vs, z) =>
        let dz := if row.asset_type ≠ "faab" ∧ v.value_at_trade = 0 then 1 else 0
        .ok (v :: vs, dz + z)

/-- Number of records with value_at_trade equal to zero:
(df["value_at_trade"] == 0).sum() in the validator. -/
def zeroAtTradeCount (records : List ValuationRecord) : Nat :=
  (records.filter (fun r => r.value_at_trade = 0)).length

/-- StageValidator.validate_stage3_output on the saved records (the CSV
round trip is assumed faithful; the required-columns check always passes
in the typed model). -/
def validate_stage3_output (records : List ValuationRecord)
    (max_zero_pct : ℚ) : Except String Unit :=
  if records.length = 0 then
    .error "No cached values - check Stage 2 output"
  else
    let zero_pct : ℚ := mkRat (zeroAtTradeCount records) records.length
    if zero_pct > max_zero_pct then
      .error "Too many zero values"
    else
      .ok ()

/-- Files Stage 3 main writes before its quality gate runs. -/
inductive EmittedFile
  | outputTable
  | backupCopy
deriving DecidableEq, Repr

/-- The main() flow of Stage 3 after loading inputs: cache values, write
asset_values_cache.csv, back it up, then validate the output.  The first
component lists the files written before the run ends; the second is the
run outcome. -/
def stage3_main (env : Env) (rows : List AssetRow) :
    List EmittedFile × Except String Unit :=
  match cache_asset_values env rows with
  | .error e => ([], .error e)
  | .ok (records, _) =>
    let emitted := [EmittedFile.outputTable, EmittedFile.backupCopy]
    match validate_stage3_output records MAX_ZERO_VALUE_PCT with
    | .error e => (emitted, .error e)
    | .ok () => (emitted, .ok ())

/-- Serialization of a pick label to the asset-label format produced by
Stage 2 (pick_name = f"{season} Round {round_num}").  Modelled from the
spec: the round-trip property speaks of re-serializing a parsed label "to
the same label format"; Stage 3 itself never re-serializes a label. -/
def serializeRoundLabel (year : String) (round_num : Int) : String :=
  year ++ " Round " ++ toString round_num

/-! Helper lemmas. -/

theorem foldl_max_spec (as : List Int) (a : Int) :
    as.foldl max a ∈ a :: as ∧ a ≤ as.foldl max a ∧
      ∀ w ∈ as, w ≤ as.foldl max a := by
  induction as generalizing a with
  | nil => simp
  | cons b bs ih =>
    obtain ⟨hmem, hle, hall⟩ := ih (max a b)
    refine ⟨?_, ?_, ?_⟩
    · simp only [List.foldl]
      rcases List.mem_cons.mp hmem with h | h
      · rcases max_choice a b with hm | hm <;> rw [hm] at h ⊢ <;> simp [h]
      · simp [h]
    · exact le_trans (le_max_left a b) hle
    · intro w hw
      rcases List.mem_cons.mp hw with h | hw
      · rw [h]; exact le_trans (le_max_right a b) hle
      · exact hall w hw

theorem foldl_min_spec (as : List Int) (a : Int) :
    as.foldl min a ∈ a :: as ∧ as.foldl min a ≤ a ∧
      ∀ w ∈ as, as.foldl min a ≤ w := by
  induction as generalizing a with
  | nil => simp
  | cons b bs ih =>
    obtain ⟨hmem, hle, hall⟩ := ih (min a b)
    refine ⟨?_, ?_, ?_⟩
    · simp only [List.foldl]
      rcases List.mem_cons.mp hmem with h | h
      · rcases min_choice a b with hm | hm <;> rw [hm] at h ⊢ <;> simp [h]
      · simp [h]
    · exact le_trans hle (min_le_left a b)
    · intro w hw
      rcases List.mem_cons.mp hw with h | hw
      · rw [h]; exact le_trans hle (min_le_right a b)
      · exact hall w hw

theorem listMax_spec (l : List Int) (hne : l ≠ []) :
    listMax l ∈ l ∧ ∀ w ∈ l, w ≤ listMax l := by
  match l with
  | [] => exact absurd rfl hne
  | a :: as =>
    obtain ⟨hmem, hle, hall⟩ := foldl_max_spec as a
    refine ⟨hmem, ?_⟩
    intro w hw
    rcases List.mem_cons.mp hw with h | hw
    · rw [h]; exact hle
    · exact hall w hw

theorem listMin_spec (l : List Int) (hne : l ≠ []) :
    listMin l ∈ l ∧ ∀ w ∈ l, listMin l ≤ w := by
  match l with
  | [] => exact absurd rfl hne
  | a :: as =>
    obtain ⟨hmem, hle, hall⟩ := foldl_min_spec as a
    refine ⟨hmem, ?_⟩
    intro w hw
    rcases List.mem_cons.mp hw with h | hw
    · rw [h]; exact hle
    · exact hall w hw

theorem findSome?_eq_none_of {α β : Type} (f : α → Option β) :
    ∀ l : List α, (∀ x ∈ l, f x = none) → l.findSome? f = none := by
  intro l h
  induction l with
  | nil => rfl
  | cons a as ih =>
    have ha := h a (by simp)
    have has : ∀ x ∈ as, f x = none := fun x hx => h x (by simp [hx])
    simp [List.findSome?, ha, ih has]

theorem mkRat_natCast_eq_div (n d : Nat) : mkRat n d = (n : ℚ) / (d : ℚ) := by
  rw [Rat.mkRat_eq_div]
  norm_num

theorem max_zero_value_pct_eq : MAX_ZERO_VALUE_PCT = 1 / 10 := by
  rw [MAX_ZERO_VALUE_PCT, Rat.mkRat_eq_div]
  norm_num

/-! Claim theorems. -/

/-- Claim C7: for every FAAB asset with dollar amount d, both
value_at_trade and value_current equal d times FAAB_VALUE_PER_DOLLAR and
the valuation cannot fail (the result is always an ok record). -/
theorem faab_valuation (env : Env) (row : AssetRow) (d : Int)
    (hty : row.asset_type = "faab")
    (hamt : parseFaabAmount row.asset_name = some d) :
    valueOneAsset env row = .ok
      { asset_name := row.asset_name, asset_type := row.asset_type,
        trade_date := row.trade_date, trade_id := row.trade_id,
        trade_type := row.trade_type, receiving_team := row.receiving_team,
        giving_team := row.giving_team, origin_owner := row.origin_owner,
        value_at_trade := d * FAAB_VALUE_PER_DOLLAR,
        value_current := d * FAAB_VALUE_PER_DOLLAR,
        value_source_at_trade := "FAAB", value_source_current := "FAAB" } := by
  unfold valueOneAsset
  rw [if_pos hty, hamt]

/-- Claim C7 witness: a $50 FAAB asset values to 50 on both fields with
the default conversion rate 1. -/
theorem faab_valuation_witness :
    valueOneAsset
      { df_current := [], commits := [], fetchCommit := fun _ => none,
        lineage := [], projections := [] }
      { asset_name := "$50 FAAB", asset_type := "faab", trade_date := 100,
        trade_id := "t", trade_type := "2-team", receiving_team := "a",
        giving_team := "b", origin_owner := "" } = .ok
      { asset_name := "$50 FAAB", asset_type := "faab", trade_date := 100,
        trade_id := "t", trade_type := "2-team", receiving_team := "a",
        giving_team := "b", origin_owner := "",
        value_at_trade := 50, value_current := 50,
        value_source_at_trade := "FAAB", value_source_current := "FAAB" } := by
  rw [faab_valuation _ _ 50 rfl (by decide)]
  rfl

/-- Claim C4: a current-season round-1 pick traded strictly before the
draft-completion date, with no exact historical pick-slot entry in the
table, values at the tier of the resolved slot: 5430 for slots 1 to 4,
2558 for 5 to 8, 1232 for 9 to 12. -/
theorem tier_fallback (L : PickLineage) (name owner : String) (d : Int)
    (tbl : ValueTable) (lin : LineageEntry) (rest : List LineageEntry)
    (hparse : parseRound2025 name = some 1)
    (hlin : lineageGet L (owner, 1) = lin :: rest)
    (hdate : d < DRAFT_COMPLETION_DATE)
    (hnoexact : lookupValue tbl
      ("2025 Pick " ++ toString (1 : Int) ++ "." ++ pad2 lin.pick_in_round) = none)
    (_h1 : 1 ≤ lin.pick_in_round) (_h12 : lin.pick_in_round ≤ 12) :
    (get_2025_pick_value L name owner d tbl false).value =
      if lin.pick_in_round ≤ 4 then 5430
      else if lin.pick_in_round ≤ 8 then 2558
      else 1232 := by
  simp only [get_2025_pick_value, hparse, hlin, if_pos hdate, hnoexact,
    Bool.false_eq_true, if_false, if_pos rfl, PickTier.get_value]
  simp

/-- Claim C4 witness: a resolved slot of 5 with no exact entry falls back
to the mid tier value 2558. -/
theorem tier_fallback_witness :
    (get_2025_pick_value [(("donewton", 1), [⟨"kyle", 5, "Some Player", 5⟩])]
      "2025 Round 1" "donewton" 100 [] false).value = 2558 := by
  rw [tier_fallback _ _ _ _ _ ⟨"kyle", 5, "Some Player", 5⟩ []
    (by decide) (by decide) (by decide) (by decide) (by decide) (by decide)]
  decide

/-- Claim C8 counterexample: the label "2025 Round 01" is accepted by the
round parser, but re-serializing the parsed round to the label format
yields "2025 Round 1", not the original string; so the round trip fails
for an accepted label. -/
theorem pick_label_roundtrip_counterexample :
    parseRound2025 "2025 Round 01" = some 1
    ∧ serializeRoundLabel "2025" 1 = "2025 Round 1"
    ∧ "2025 Round 1" ≠ "2025 Round 01" :=
  ⟨by decide, by decide, by decide⟩

/-- Claim C8 (amended): for canonical labels, i.e. exactly the strings the
label serializer produces for the rounds of this league (1 to 12), parsing
recovers the round, hence re-serializing reproduces the original label;
non-canonical accepted labels (padded round digits, extra whitespace) do
not round-trip. -/
theorem pick_label_roundtrip_amended (r : Int) (h1 : 1 ≤ r) (h12 : r ≤ 12) :
    parseRound2025 (serializeRoundLabel "2025" r) = some r := by
  interval_cases r <;> decide

/-- Claim C8 witness: round 1 round-trips through its canonical label. -/
theorem pick_label_roundtrip_witness :
    (1 : Int) ≤ 1 ∧ (1 : Int) ≤ 12
    ∧ parseRound2025 (serializeRoundLabel "2025" 1) = some 1 :=
  ⟨by decide, by decide, pick_label_roundtrip_amended 1 (by decide) (by decide)⟩

/-- Claim C10: for a non-empty batch, the Stage 3 quality gate raises its
zero-value failure exactly when the number of records with
value_at_trade = 0, divided by the total record count (FAAB records
included), exceeds the threshold; a record with value_current = 0 but a
non-zero value_at_trade never increases the count, and a record with
value_at_trade = 0 increases it by exactly one. -/
theorem zero_gate_characterization (records : List ValuationRecord) (q : ℚ)
    (hne : records ≠ []) :
    (validate_stage3_output records q = .error "Too many zero values" ↔
      ((records.filter (fun r => r.value_at_trade = 0)).length : ℚ)
        / (records.length : ℚ) > q)
    ∧ (∀ x : ValuationRecord, x.value_current = 0 → x.value_at_trade ≠ 0 →
        zeroAtTradeCount (x :: records) = zeroAtTradeCount records)
    ∧ (∀ x : ValuationRecord, x.value_at_trade = 0 →
        zeroAtTradeCount (x :: records) = zeroAtTradeCount records + 1) := by
  refine ⟨?_, ?_, ?_⟩
  · have hlen : records.length ≠ 0 := by
      simpa [List.length_eq_zero] using hne
    unfold validate_stage3_output
    rw [if_neg hlen]
    rw [show mkRat (zeroAtTradeCount records) records.length =
        ((records.filter (fun r => r.value_at_trade = 0)).length : ℚ)
          / (records.length : ℚ) from mkRat_natCast_eq_div _ _]
    by_cases h : ((records.filter (fun r => r.value_at_trade = 0)).length : ℚ)
        / (records.length : ℚ) > q
    · simp [if_pos h, h]
    · simp [if_neg h, h]
  · intro x _ hx
    simp [zeroAtTradeCount, List.filter_cons, hx]
  · intro x hx
    simp [zeroAtTradeCount, List.filter_cons, hx, Nat.add_comm]

/-- Reduction helper: the shape of valueOneAsset on a current-season pick
row (asset_type "pick", name containing "2025 Round", origin present). -/
theorem valueOne_pick2025_eq (env : Env) (row : AssetRow)
    (hty : row.asset_type = "pick")
    (hname : strContainsCS row.asset_name "2025 Round" = true)
    (horig : row.origin_owner ≠ "") :
    valueOneAsset env row = .ok
      { asset_name := row.asset_name, asset_type := row.asset_type,
        trade_date := row.trade_date, trade_id := row.trade_id,
        trade_type := row.trade_type, receiving_team := row.receiving_team,
        giving_team := row.giving_team, origin_owner := row.origin_owner,
        value_at_trade := (get_2025_pick_value env.lineage row.asset_name
          row.origin_owner row.trade_date
          ((histTable env row.trade_date).getD env.df_current) false).value,
        value_current := (get_2025_pick_value env.lineage row.asset_name
          row.origin_owner row.trade_date env.df_current true).value,
        value_source_at_trade := (get_2025_pick_value env.lineage row.asset_name
          row.origin_owner row.trade_date
          ((histTable env row.trade_date).getD env.df_current) false).source,
        value_source_current := (get_2025_pick_value env.lineage row.asset_name
          row.origin_owner row.trade_date env.df_current true).source } := by
  rw [valueOneAsset, histTable]
  rw [if_neg (by rw [hty]; decide), if_pos hty, if_pos ⟨hname, horig⟩]

/-- Reduction helper: a player row (neither FAAB nor pick) whose
historical table is unavailable gets value_at_trade 0 with source
"No Git commit"; value_current still comes from the current table. -/
theorem valueOne_player_no_hist (env : Env) (row : AssetRow)
    (hhist : histTable env row.trade_date = none)
    (hfaab : row.asset_type ≠ "faab") (hpick : row.asset_type ≠ "pick") :
    valueOneAsset env row = .ok
      { asset_name := row.asset_name, asset_type := row.asset_type,
        trade_date := row.trade_date, trade_id := row.trade_id,
        trade_type := row.trade_type, receiving_team := row.receiving_team,
        giving_team := row.giving_team, origin_owner := row.origin_owner,
        value_at_trade := 0,
        value_current := ((lookupValue env.df_current row.asset_name).map
          (fun v => (v, "DynastyProcess"))).getD (0, "Not found") |>.1,
        value_source_at_trade := "No Git commit",
        value_source_current := ((lookupValue env.df_current row.asset_name).map
          (fun v => (v, "DynastyProcess"))).getD (0, "Not found") |>.2 } := by
  rw [valueOneAsset, if_neg hfaab, if_neg hpick]
  unfold histTable at hhist
  cases hc : findCommitSha env.commits row.trade_date with
  | none =>
    cases hl : lookupValue env.df_current row.asset_name <;> simp [hl]
  | some sha =>
    rw [hc] at hhist
    have hfetch : env.fetchCommit sha = none := hhist
    cases hl : lookupValue env.df_current row.asset_name <;> simp [hfetch, hl]

/-- Reduction helper: get_2025_pick_value on or after the draft-completion
date resolves to the drafted player of the first lineage entry, for either
value of is_current. -/
theorem get_2025_post_draft (L : PickLineage) (name owner : String) (d : Int)
    (tbl : ValueTable) (ic : Bool) (rn : Int) (lin : LineageEntry)
    (rest : List LineageEntry)
    (hd : ¬ d < DRAFT_COMPLETION_DATE)
    (hparse : parseRound2025 name = some rn)
    (hlin : lineageGet L (owner, rn) = lin :: rest) :
    get_2025_pick_value L name owner d tbl ic =
      match lookupValue tbl lin.player with
      | some v => ⟨v, "Player:" ++ lin.player ++ " (post-draft)"⟩
      | none => ⟨0, "Player not found:" ++ lin.player⟩ := by
  simp only [get_2025_pick_value, hparse, hlin, if_neg hd]

/-- Claim C3: a current-season pick traded exactly on the
draft-completion date is valued post-draft (the date comparison is
"on or after", not "strictly after"): both fields resolve to the drafted
player looked up in their respective tables, so when that player has the
same value v in the at-trade table and the current table, both output
fields equal v. -/
theorem on_draft_date_is_post_draft (env : Env) (row : AssetRow)
    (rn v : Int) (lin : LineageEntry) (rest : List LineageEntry)
    (hty : row.asset_type = "pick")
    (hname : strContainsCS row.asset_name "2025 Round" = true)
    (horig : row.origin_owner ≠ "")
    (hdate : row.trade_date = DRAFT_COMPLETION_DATE)
    (hparse : parseRound2025 row.asset_name = some rn)
    (hlin : lineageGet env.lineage (row.origin_owner, rn) = lin :: rest)
    (hhist : lookupValue ((histTable env row.trade_date).getD env.df_current)
      lin.player = some v)
    (hcur : lookupValue env.df_current lin.player = some v) :
    (valueOneAsset env row).toOption.map
      (fun r => (r.value_at_trade, r.value_current, r.value_source_at_trade))
      = some (v, v, "Player:" ++ lin.player ++ " (post-draft)") := by
  have hpost : ¬ row.trade_date < DRAFT_COMPLETION_DATE := by
    rw [hdate]
    exact lt_irrefl _
  rw [valueOne_pick2025_eq env row hty hname horig]
  rw [get_2025_post_draft _ _ _ _ _ _ rn lin rest hpost hparse hlin,
    get_2025_post_draft _ _ _ _ _ _ rn lin rest hpost hparse hlin]
  rw [hhist, hcur]
  rfl

/-- Claim C3 witness: a round-1 pick traded on day 124 (the
draft-completion date) with drafted player valued 3500 in both tables
yields 3500 on both fields, via the post-draft path. -/
theorem on_draft_date_is_post_draft_witness :
    (valueOneAsset
      { df_current := [⟨"Brock Bowers", 3500⟩], commits := [(124, "shashasha")],
        fetchCommit := fun _ => some [⟨"Brock Bowers", 3500⟩],
        lineage := [(("donewton", 1), [⟨"kyle", 1, "Brock Bowers", 1⟩])],
        projections := [] }
      { asset_name := "2025 Round 1", asset_type := "pick", trade_date := 124,
        trade_id := "t1", trade_type := "2-team", receiving_team := "a",
        giving_team := "b", origin_owner := "donewton" }).toOption.map
      (fun r => (r.value_at_trade, r.value_current, r.value_source_at_trade))
      = some (3500, 3500, "Player:" ++ "Brock Bowers" ++ " (post-draft)") :=
  on_draft_date_is_post_draft _ _ 1 3500 ⟨"kyle", 1, "Brock Bowers", 1⟩ []
    rfl (by decide) (by decide) rfl (by decide) rfl (by decide) (by decide)

/-- Claim C5: whenever a team has at least one projection week column for
the requested round, the selected week is the target week if available,
else the greatest available week not exceeding the target, else the least
available week; the returned column name is built from the selected week. -/
theorem best_week_selection (team_row : TeamProj) (round_name : String)
    (target : Int)
    (hne : get_available_weeks team_row round_name ≠ []) :
    ∃ sel, get_best_week_column team_row round_name target =
        some ("Week" ++ toString sel ++ "_2026_" ++ round_name, sel)
      ∧ sel ∈ get_available_weeks team_row round_name
      ∧ (target ∈ get_available_weeks team_row round_name → sel = target)
      ∧ (target ∉ get_available_weeks team_row round_name →
          (∃ w ∈ get_available_weeks team_row round_name, w ≤ target) →
          sel ≤ target ∧
            ∀ w ∈ get_available_weeks team_row round_name, w ≤ target → w ≤ sel)
      ∧ ((∀ w ∈ get_available_weeks team_row round_name, target < w) →
          ∀ w ∈ get_available_weeks team_row round_name, sel ≤ w) := by
  have hF : (get_available_weeks team_row round_name).isEmpty = false := by
    cases h : get_available_weeks team_row round_name with
    | nil => exact absurd h hne
    | cons a as => rfl
  by_cases hmem : target ∈ get_available_weeks team_row round_name
  · refine ⟨target, ?_, hmem, fun _ => rfl, fun hnot _ => absurd hmem hnot, ?_⟩
    · rw [get_best_week_column]
      simp [hF, hmem]
    · intro hall w hw
      exact le_of_lt (hall w hw)
  · by_cases hany : ∃ w ∈ get_available_weeks team_row round_name, w ≤ target
    · have hanyT : (get_available_weeks team_row round_name).any
          (fun w => w ≤ target) = true := by
        simp only [List.any_eq_true, decide_eq_true_eq]
        obtain ⟨w, hwA, hwle⟩ := hany
        exact ⟨w, hwA, hwle⟩
      have hFne : (get_available_weeks team_row round_name).filter
          (fun w => w ≤ target) ≠ [] := by
        obtain ⟨w, hwA, hwle⟩ := hany
        exact List.ne_nil_of_mem (List.mem_filter.mpr ⟨hwA, by simpa⟩)
      obtain ⟨hMmem, hMmax⟩ := listMax_spec _ hFne
      have hMA : listMax ((get_available_weeks team_row round_name).filter
          (fun w => w ≤ target)) ∈ get_available_weeks team_row round_name :=
        (List.mem_filter.mp hMmem).1
      have hMle : listMax ((get_available_weeks team_row round_name).filter
          (fun w => w ≤ target)) ≤ target := by
        have := (List.mem_filter.mp hMmem).2
        simpa using this
      refine ⟨_, ?_, hMA, fun h => absurd h hmem, ?_, ?_⟩
      · rw [get_best_week_column]
        simp [hF, hmem, hanyT]
      · intro _ _
        refine ⟨hMle, ?_⟩
        intro w hw hwle
        exact hMmax w (List.mem_filter.mpr ⟨hw, by simpa⟩)
      · intro hall
        obtain ⟨w, hwA, hwle⟩ := hany
        exact absurd (hall w hwA) (not_lt.mpr hwle)
    · have hanyF : (get_available_weeks team_row round_name).any
          (fun w => w ≤ target) = false := by
        rw [← Bool.not_eq_true]
        intro hc
        apply hany
        simpa only [List.any_eq_true, decide_eq_true_eq] using hc
      obtain ⟨hmmem, hmmin⟩ := listMin_spec _ hne
      refine ⟨_, ?_, hmmem, fun h => absurd h hmem, fun _ hex => absurd hex hany, ?_⟩
      · rw [get_best_week_column]
        simp [hF, hmem, hanyF]
      · intro _ w hw
        exact hmmin w hw

/-- Claim C5 witness: with only Week7 and Week12 columns for the 2nd
round, target week 9 selects Week7 (greatest week not above the target)
and target week 3 also selects Week7 (least available week). -/
theorem best_week_selection_witness :
    get_available_weeks ⟨"donewton", [("Week7_2026_2nd", 555),
      ("Week12_2026_2nd", 666)]⟩ "2nd" ≠ []
    ∧ get_best_week_column ⟨"donewton", [("Week7_2026_2nd", 555),
        ("Week12_2026_2nd", 666)]⟩ "2nd" 9 = some ("Week7_2026_2nd", 7)
    ∧ get_best_week_column ⟨"donewton", [("Week7_2026_2nd", 555),
        ("Week12_2026_2nd", 666)]⟩ "2nd" 3 = some ("Week7_2026_2nd", 7)
    ∧ ∃ sel, get_best_week_column ⟨"donewton", [("Week7_2026_2nd", 555),
        ("Week12_2026_2nd", 666)]⟩ "2nd" 9 =
        some ("Week" ++ toString sel ++ "_2026_" ++ "2nd", sel)
      ∧ sel ∈ get_available_weeks ⟨"donewton", [("Week7_2026_2nd", 555),
          ("Week12_2026_2nd", 666)]⟩ "2nd"
      ∧ (9 ∈ get_available_weeks ⟨"donewton", [("Week7_2026_2nd", 555),
          ("Week12_2026_2nd", 666)]⟩ "2nd" → sel = 9)
      ∧ ((9 : Int) ∉ get_available_weeks ⟨"donewton", [("Week7_2026_2nd", 555),
          ("Week12_2026_2nd", 666)]⟩ "2nd" →
          (∃ w ∈ get_available_weeks ⟨"donewton", [("Week7_2026_2nd", 555),
            ("Week12_2026_2nd", 666)]⟩ "2nd", w ≤ 9) →
          sel ≤ 9 ∧ ∀ w ∈ get_available_weeks ⟨"donewton",
            [("Week7_2026_2nd", 555), ("Week12_2026_2nd", 666)]⟩ "2nd",
            w ≤ 9 → w ≤ sel)
      ∧ ((∀ w ∈ get_available_weeks ⟨"donewton", [("Week7_2026_2nd", 555),
          ("Week12_2026_2nd", 666)]⟩ "2nd", (9 : Int) < w) →
          ∀ w ∈ get_available_weeks ⟨"donewton", [("Week7_2026_2nd", 555),
            ("Week12_2026_2nd", 666)]⟩ "2nd", sel ≤ w) :=
  ⟨by decide, by decide, by decide,
    best_week_selection ⟨"donewton", [("Week7_2026_2nd", 555),
      ("Week12_2026_2nd", 666)]⟩ "2nd" 9 (by decide)⟩

/-- Claim C10 witness: a singleton batch with one zero-valued record
instantiates the quality-gate characterization at the default threshold. -/
theorem zero_gate_characterization_witness :
    ([(⟨"X", "player", 1, "t", "2-team", "a", "b", "", 0, 5, "s1", "s2"⟩ :
        ValuationRecord)] ≠ [])
    ∧ ((validate_stage3_output
        [⟨"X", "player", 1, "t", "2-team", "a", "b", "", 0, 5, "s1", "s2"⟩]
        MAX_ZERO_VALUE_PCT = .error "Too many zero values" ↔
        ((([(⟨"X", "player", 1, "t", "2-team", "a", "b", "", 0, 5, "s1", "s2"⟩ :
            ValuationRecord)].filter (fun r => r.value_at_trade = 0)).length : ℚ)
          / (([(⟨"X", "player", 1, "t", "2-team", "a", "b", "", 0, 5, "s1", "s2"⟩ :
            ValuationRecord)].length : ℚ)) > MAX_ZERO_VALUE_PCT))
      ∧ (∀ x : ValuationRecord, x.value_current = 0 → x.value_at_trade ≠ 0 →
          zeroAtTradeCount (x :: [⟨"X", "player", 1, "t", "2-team", "a", "b",
            "", 0, 5, "s1", "s2"⟩]) =
          zeroAtTradeCount [⟨"X", "player", 1, "t", "2-team", "a", "b",
            "", 0, 5, "s1", "s2"⟩])
      ∧ (∀ x : ValuationRecord, x.value_at_trade = 0 →
          zeroAtTradeCount (x :: [⟨"X", "player", 1, "t", "2-team", "a", "b",
            "", 0, 5, "s1", "s2"⟩]) =
          zeroAtTradeCount [⟨"X", "player", 1, "t", "2-team", "a", "b",
            "", 0, 5, "s1", "s2"⟩] + 1)) :=
  ⟨by decide, zero_gate_characterization
    [⟨"X", "player", 1, "t", "2-team", "a", "b", "", 0, 5, "s1", "s2"⟩]
    MAX_ZERO_VALUE_PCT (by decide)⟩

/-- Reduction helper: the shape of valueOneAsset on a future pick row
(asset_type "pick", not the 2025 branch, name containing 2026/2027/2028,
origin present). -/
theorem valueOne_pick2026_eq (env : Env) (row : AssetRow)
    (hty : row.asset_type = "pick")
    (hnot2025 : ¬ (strContainsCS row.asset_name "2025 Round" = true
      ∧ row.origin_owner ≠ ""))
    (h2026 : strContainsCS row.asset_name "2026" = true
      ∨ strContainsCS row.asset_name "2027" = true
      ∨ strContainsCS row.asset_name "2028" = true)
    (horig : row.origin_owner ≠ "") :
    valueOneAsset env row =
      match get_2026_plus_pick_value env.projections row.asset_name
          row.origin_owner row.trade_date
          ((histTable env row.trade_date).getD env.df_current) with
      | .error e => .error e
      | .ok vat =>
        match get_2026_plus_pick_value env.projections row.asset_name
            row.origin_owner row.trade_date env.df_current with
        | .error e => .error e
        | .ok vcur => .ok
            { asset_name := row.asset_name, asset_type := row.asset_type,
              trade_date := row.trade_date, trade_id := row.trade_id,
              trade_type := row.trade_type,
              receiving_team := row.receiving_team,
              giving_team := row.giving_team,
              origin_owner := row.origin_owner,
              value_at_trade := vat.value, value_current := vcur.value,
              value_source_at_trade := vat.source,
              value_source_current := vcur.source } := by
  rw [valueOneAsset, histTable]
  rw [if_neg (by rw [hty]; decide), if_pos hty, if_neg hnot2025,
    if_pos ⟨h2026, horig⟩]

/-- Reduction helper: a 2025-branch pick row whose historical table is
unavailable is valued with the current table substituted for the at-trade
table, and the row still produces an ok record. -/
theorem valueOne_pick2025_no_hist (env : Env) (row : AssetRow)
    (hhist : histTable env row.trade_date = none)
    (hty : row.asset_type = "pick")
    (hname : strContainsCS row.asset_name "2025 Round" = true)
    (horig : row.origin_owner ≠ "") :
    valueOneAsset env row = .ok
      { asset_name := row.asset_name, asset_type := row.asset_type,
        trade_date := row.trade_date, trade_id := row.trade_id,
        trade_type := row.trade_type, receiving_team := row.receiving_team,
        giving_team := row.giving_team, origin_owner := row.origin_owner,
        value_at_trade := (get_2025_pick_value env.lineage row.asset_name
          row.origin_owner row.trade_date env.df_current false).value,
        value_current := (get_2025_pick_value env.lineage row.asset_name
          row.origin_owner row.trade_date env.df_current true).value,
        value_source_at_trade := (get_2025_pick_value env.lineage
          row.asset_name row.origin_owner row.trade_date
          env.df_current false).source,
        value_source_current := (get_2025_pick_value env.lineage
          row.asset_name row.origin_owner row.trade_date
          env.df_current true).source } := by
  rw [valueOne_pick2025_eq env row hty hname horig, hhist]
  rfl

/-- Reduction helper: a future-pick row whose historical table is
unavailable values both fields with the same current-table valuation. -/
theorem valueOne_pick2026_no_hist (env : Env) (row : AssetRow)
    (vp : ValPair)
    (hhist : histTable env row.trade_date = none)
    (hty : row.asset_type = "pick")
    (hnot2025 : ¬ (strContainsCS row.asset_name "2025 Round" = true
      ∧ row.origin_owner ≠ ""))
    (h2026 : strContainsCS row.asset_name "2026" = true
      ∨ strContainsCS row.asset_name "2027" = true
      ∨ strContainsCS row.asset_name "2028" = true)
    (horig : row.origin_owner ≠ "")
    (hok : get_2026_plus_pick_value env.projections row.asset_name
      row.origin_owner row.trade_date env.df_current = .ok vp) :
    valueOneAsset env row = .ok
      { asset_name := row.asset_name, asset_type := row.asset_type,
        trade_date := row.trade_date, trade_id := row.trade_id,
        trade_type := row.trade_type, receiving_team := row.receiving_team,
        giving_team := row.giving_team, origin_owner := row.origin_owner,
        value_at_trade := vp.value, value_current := vp.value,
        value_source_at_trade := vp.source,
        value_source_current := vp.source } := by
  rw [valueOne_pick2026_eq env row hty hnot2025 h2026 horig, hhist]
  simp only [Option.getD_none]
  rw [hok]

/-- Claim C2 counterexample: a player row whose historical snapshot is
unavailable is NOT valued against the current table: the current table
holds the player at 77, yet value_at_trade is 0 with source
"No Git commit" (only pick rows substitute the current table). -/
def envC2 : Env :=
  { df_current := [⟨"Joe Flow", 77⟩], commits := [],
    fetchCommit := fun _ => none, lineage := [], projections := [] }

def rowC2 : AssetRow :=
  { asset_name := "Joe Flow", asset_type := "player", trade_date := 100,
    trade_id := "t1", trade_type := "2-team", receiving_team := "a",
    giving_team := "b", origin_owner := "" }

theorem degrade_to_current_counterexample :
    histTable envC2 100 = none
    ∧ lookupValue envC2.df_current "Joe Flow" = some 77
    ∧ (valueOneAsset envC2 rowC2).toOption.map
        (fun r => (r.value_at_trade, r.value_source_at_trade))
      = some (0, "No Git commit") :=
  ⟨rfl, by decide, rfl⟩

/-- Claim C2 (amended): when the historical snapshot table is unavailable
for a row, the run does not abort on that account; pick rows (both the
current-season and the future-pick branches) substitute the current table
for the at-trade valuation, while player rows record value_at_trade 0 with
source "No Git commit" and do not consult the current table for it. -/
theorem degrade_to_current_table (env : Env) (row : AssetRow)
    (hhist : histTable env row.trade_date = none) :
    (row.asset_type ≠ "faab" → row.asset_type ≠ "pick" →
      (valueOneAsset env row).toOption.map
        (fun r => (r.value_at_trade, r.value_source_at_trade))
        = some (0, "No Git commit"))
    ∧ (row.asset_type = "pick" →
        strContainsCS row.asset_name "2025 Round" = true →
        row.origin_owner ≠ "" →
        (valueOneAsset env row).toOption.map (fun r => r.value_at_trade)
          = some (get_2025_pick_value env.lineage row.asset_name
              row.origin_owner row.trade_date env.df_current false).value)
    ∧ (∀ vp : ValPair, row.asset_type = "pick" →
        ¬ (strContainsCS row.asset_name "2025 Round" = true
          ∧ row.origin_owner ≠ "") →
        (strContainsCS row.asset_name "2026" = true
          ∨ strContainsCS row.asset_name "2027" = true
          ∨ strContainsCS row.asset_name "2028" = true) →
        row.origin_owner ≠ "" →
        get_2026_plus_pick_value env.projections row.asset_name
          row.origin_owner row.trade_date env.df_current = .ok vp →
        (valueOneAsset env row).toOption.map (fun r => r.value_at_trade)
          = some vp.value) := by
  refine ⟨?_, ?_, ?_⟩
  · intro h1 h2
    rw [valueOne_player_no_hist env row hhist h1 h2]
    rfl
  · intro hty hname horig
    rw [valueOne_pick2025_no_hist env row hhist hty hname horig]
    rfl
  · intro vp hty hnot h26 horig hok
    rw [valueOne_pick2026_no_hist env row vp hhist hty hnot h26 horig hok]
    rfl

/-- Claim C2 witness: a 2025 pick with no snapshot in range resolves its
at-trade value on the current table (here the tier fallback on the current
table yields 5430 for slot 1), and the run does not abort. -/
def envC2w : Env :=
  { df_current := [⟨"New Star", 4000⟩], commits := [],
    fetchCommit := fun _ => none,
    lineage := [(("donewton", 1), [⟨"kyle", 1, "New Star", 1⟩])],
    projections := [] }

def rowC2w : AssetRow :=
  { asset_name := "2025 Round 1", asset_type := "pick", trade_date := 100,
    trade_id := "t1", trade_type := "2-team", receiving_team := "a",
    giving_team := "b", origin_owner := "donewton" }

theorem degrade_to_current_table_witness :
    (valueOneAsset envC2w rowC2w).toOption.map (fun r => r.value_at_trade)
      = some (get_2025_pick_value envC2w.lineage "2025 Round 1" "donewton"
          100 envC2w.df_current false).value :=
  (degrade_to_current_table envC2w rowC2w rfl).2.1 rfl (by decide) (by decide)

/-- Claim C9: the valuation run is deterministic and has no hidden
cross-row state: two runs over the same rows and tables give the same
output, and the output over a concatenation of batches is the
concatenation of the outputs (records and zero counters compose). -/
theorem valuation_deterministic (env : Env) :
    (∀ rows out1 out2, out1 = cache_asset_values env rows →
        out2 = cache_asset_values env rows → out1 = out2)
    ∧ (∀ rows1 rows2 recs1 z1 recs2 z2,
        cache_asset_values env rows1 = .ok (recs1, z1) →
        cache_asset_values env rows2 = .ok (recs2, z2) →
        cache_asset_values env (rows1 ++ rows2) = .ok (recs1 ++ recs2, z1 + z2)) := by
  constructor
  · intro rows o1 o2 h1 h2
    rw [h1, h2]
  · intro rows1
    induction rows1 with
    | nil =>
      intro rows2 recs1 z1 recs2 z2 h1 h2
      rw [cache_asset_values] at h1
      injection h1 with h1
      injection h1 with ha hb
      subst ha
      subst hb
      simpa using h2
    | cons row rest ih =>
      intro rows2 recs1 z1 recs2 z2 h1 h2
      rw [cache_asset_values] at h1
      rw [List.cons_append, cache_asset_values]
      cases hv : valueOneAsset env row with
      | error e =>
        rw [hv] at h1
        exact absurd h1 (by simp)
      | ok v =>
        rw [hv] at h1
        cases hr : cache_asset_values env rest with
        | error e =>
          rw [hr] at h1
          exact absurd h1 (by simp)
        | ok p =>
          obtain ⟨vs, z⟩ := p
          rw [hr] at h1
          simp only [Except.ok.injEq, Prod.mk.injEq] at h1
          obtain ⟨h1a, h1b⟩ := h1
          subst h1a
          subst h1b
          rw [ih rows2 vs z recs2 z2 hr h2]
          simp [add_assoc]

/-- Claim C9 witness: composing a FAAB batch and a player batch reproduces
both records with the zero counters added. -/
def envC9 : Env :=
  { df_current := [⟨"Pat Smith", 10⟩], commits := [],
    fetchCommit := fun _ => none, lineage := [], projections := [] }

def rowC9a : AssetRow :=
  { asset_name := "$10 FAAB", asset_type := "faab", trade_date := 100,
    trade_id := "t1", trade_type := "2-team", receiving_team := "a",
    giving_team := "b", origin_owner := "" }

def rowC9b : AssetRow :=
  { asset_name := "Pat Smith", asset_type := "player", trade_date := 100,
    trade_id := "t2", trade_type := "2-team", receiving_team := "a",
    giving_team := "b", origin_owner := "" }

theorem valuation_deterministic_witness :
    cache_asset_values envC9 ([rowC9a] ++ [rowC9b]) = .ok
      ([⟨"$10 FAAB", "faab", 100, "t1", "2-team", "a", "b", "", 10, 10,
          "FAAB", "FAAB"⟩,
        ⟨"Pat Smith", "player", 100, "t2", "2-team", "a", "b", "", 0, 10,
          "No Git commit", "DynastyProcess"⟩], 0 + 1) :=
  (valuation_deterministic envC9).2 [rowC9a] [rowC9b]
    [⟨"$10 FAAB", "faab", 100, "t1", "2-team", "a", "b", "", 10, 10,
      "FAAB", "FAAB"⟩] 0
    [⟨"Pat Smith", "player", 100, "t2", "2-team", "a", "b", "", 0, 10,
      "No Git commit", "DynastyProcess"⟩] 1 rfl rfl

/-- Claim C1 counterexample: a batch whose only record values to zero
(fraction 1 > 10%) makes the run raise the data-quality failure, but the
output table and its backup are written BEFORE the gate runs, so an output
table is produced on failure, contrary to the claim. -/
def envC1 : Env :=
  { df_current := [], commits := [], fetchCommit := fun _ => none,
    lineage := [], projections := [] }

def rowC1 : AssetRow :=
  { asset_name := "Nobody", asset_type := "player", trade_date := 100,
    trade_id := "t1", trade_type := "2-team", receiving_team := "a",
    giving_team := "b", origin_owner := "" }

theorem quality_gate_counterexample :
    stage3_main envC1 [rowC1] =
      ([EmittedFile.outputTable, EmittedFile.backupCopy],
        .error "Too many zero values")
    ∧ EmittedFile.outputTable ∈ (stage3_main envC1 [rowC1]).1 :=
  ⟨rfl, by decide⟩

/-- Claim C1 (amended): when strictly more than the 10% threshold of the
produced records have value_at_trade 0, the run raises the data-quality
failure (so the statistics step and every downstream stage are skipped),
but only after the output table and its backup have been written. -/
theorem quality_gate_after_write (env : Env) (rows : List AssetRow)
    (records : List ValuationRecord) (z : Nat)
    (hok : cache_asset_values env rows = .ok (records, z))
    (hfrac : ((zeroAtTradeCount records : ℚ) / (records.length : ℚ)) >
      MAX_ZERO_VALUE_PCT) :
    (stage3_main env rows).2 = .error "Too many zero values"
    ∧ (stage3_main env rows).1 = [EmittedFile.outputTable, EmittedFile.backupCopy] := by
  have hrecne : records ≠ [] := by
    rintro rfl
    rw [max_zero_value_pct_eq] at hfrac
    norm_num [zeroAtTradeCount] at hfrac
  have hlen : records.length ≠ 0 := by
    simpa [List.length_eq_zero] using hrecne
  have hgate : validate_stage3_output records MAX_ZERO_VALUE_PCT =
      .error "Too many zero values" := by
    rw [validate_stage3_output, if_neg hlen]
    rw [if_pos]
    rw [mkRat_natCast_eq_div]
    exact hfrac
  simp [stage3_main, hok, hgate]

/-- Claim C1 witness: the amended statement instantiated on a singleton
all-zero batch. -/
theorem quality_gate_after_write_witness :
    (stage3_main envC1 [rowC1]).2 = .error "Too many zero values"
    ∧ (stage3_main envC1 [rowC1]).1 =
      [EmittedFile.outputTable, EmittedFile.backupCopy] := by
  refine quality_gate_after_write envC1 [rowC1]
    [⟨"Nobody", "player", 100, "t1", "2-team", "a", "b", "", 0, 0,
      "No Git commit", "Not found"⟩] 1 rfl ?_
  rw [max_zero_value_pct_eq,
    show zeroAtTradeCount [⟨"Nobody", "player", 100, "t1", "2-team", "a",
      "b", "", 0, 0, "No Git commit", "Not found"⟩] = 1 from by decide]
  norm_num

/-- Reduction helper: the commit search with no exact-date hit is the
backward scan followed by the forward scan. -/
theorem findCommitSha_no_exact (commits : List (Int × String)) (d : Int)
    (h0 : commits.lookup d = none) :
    findCommitSha commits d =
      match searchOffsets.findSome? (fun k => commits.lookup (d - k)) with
      | some sha => some sha
      | none => searchOffsets.findSome? (fun k => commits.lookup (d + k)) := by
  rw [findCommitSha, h0]

/-- Claim C6 counterexample: with the only snapshot 10 days before the
trade (outside the 7-day window), no historical table is selected; the
player-row caller does NOT fall back to the current table for
value_at_trade (the current table holds the player at 88, the record says
0 / "No Git commit"), contrary to the final clause of the claim. -/
theorem snapshot_search_counterexample :
    findCommitSha [((90 : Int), "aaaaaaa")] 100 = none
    ∧ lookupValue [⟨"Max Power", 88⟩] "Max Power" = some 88
    ∧ (valueOneAsset
        { df_current := [⟨"Max Power", 88⟩], commits := [(90, "aaaaaaa")],
          fetchCommit := fun _ => none, lineage := [], projections := [] }
        { asset_name := "Max Power", asset_type := "player",
          trade_date := 100, trade_id := "t1", trade_type := "2-team",
          receiving_team := "a", giving_team := "b",
          origin_owner := "" }).toOption.map
        (fun r => (r.value_at_trade, r.value_source_at_trade))
      = some (0, "No Git commit") :=
  ⟨by decide, by decide, rfl⟩

/-- Claim C6 (amended): the snapshot selection picks the exact-date
commit when present, else the nearest earlier commit within the 7-day
window, else the nearest later commit within the window, else none (and
then no historical table exists); when none exists, pick rows substitute
the current table for the at-trade valuation while player rows record 0
with source "No Git commit". -/
theorem snapshot_search_characterization (env : Env) (d : Int) :
    (∀ sha, env.commits.lookup d = some sha →
      findCommitSha env.commits d = some sha)
    ∧ (∀ δ : Int, ∀ sha, env.commits.lookup d = none →
        1 ≤ δ → δ ≤ 7 → env.commits.lookup (d - δ) = some sha →
        (∀ ε : Int, 1 ≤ ε → ε < δ → env.commits.lookup (d - ε) = none) →
        findCommitSha env.commits d = some sha)
    ∧ (∀ δ : Int, ∀ sha, env.commits.lookup d = none →
        (∀ ε : Int, 1 ≤ ε → ε ≤ 7 → env.commits.lookup (d - ε) = none) →
        1 ≤ δ → δ ≤ 7 → env.commits.lookup (d + δ) = some sha →
        (∀ ε : Int, 1 ≤ ε → ε < δ → env.commits.lookup (d + ε) = none) →
        findCommitSha env.commits d = some sha)
    ∧ (env.commits.lookup d = none →
        (∀ ε : Int, 1 ≤ ε → ε ≤ 7 → env.commits.lookup (d - ε) = none) →
        (∀ ε : Int, 1 ≤ ε → ε ≤ 7 → env.commits.lookup (d + ε) = none) →
        findCommitSha env.commits d = none ∧ histTable env d = none)
    ∧ (∀ row : AssetRow, row.trade_date = d → histTable env d = none →
        row.asset_type = "pick" →
        strContainsCS row.asset_name "2025 Round" = true →
        row.origin_owner ≠ "" →
        (valueOneAsset env row).toOption.map (fun r => r.value_at_trade)
          = some (get_2025_pick_value env.lineage row.asset_name
              row.origin_owner row.trade_date env.df_current false).value)
    ∧ (∀ row : AssetRow, row.trade_date = d → histTable env d = none →
        row.asset_type ≠ "faab" → row.asset_type ≠ "pick" →
        (valueOneAsset env row).toOption.map
          (fun r => (r.value_at_trade, r.value_source_at_trade))
          = some (0, "No Git commit")) := by
  have hso : searchOffsets = [1, 2, 3, 4, 5, 6, 7] := by decide
  refine ⟨?_, ?_, ?_, ?_, ?_, ?_⟩
  · intro sha h
    rw [findCommitSha, h]
  · intro δ sha h0 hδ1 hδ7 hhit hmin
    have hb : searchOffsets.findSome?
        (fun k => env.commits.lookup (d - k)) = some sha := by
      rw [hso]
      interval_cases δ
      · simp [List.findSome?_cons, hhit]
      · simp [List.findSome?_cons, hhit,
          hmin 1 (by norm_num) (by norm_num)]
      · simp [List.findSome?_cons, hhit,
          hmin 1 (by norm_num) (by norm_num),
          hmin 2 (by norm_num) (by norm_num)]
      · simp [List.findSome?_cons, hhit,
          hmin 1 (by norm_num) (by norm_num),
          hmin 2 (by norm_num) (by norm_num),
          hmin 3 (by norm_num) (by norm_num)]
      · simp [List.findSome?_cons, hhit,
          hmin 1 (by norm_num) (by norm_num),
          hmin 2 (by norm_num) (by norm_num),
          hmin 3 (by norm_num) (by norm_num),
          hmin 4 (by norm_num) (by norm_num)]
      · simp [List.findSome?_cons, hhit,
          hmin 1 (by norm_num) (by norm_num),
          hmin 2 (by norm_num) (by norm_num),
          hmin 3 (by norm_num) (by norm_num),
          hmin 4 (by norm_num) (by norm_num),
          hmin 5 (by norm_num) (by norm_num)]
      · simp [List.findSome?_cons, hhit,
          hmin 1 (by norm_num) (by norm_num),
          hmin 2 (by norm_num) (by norm_num),
          hmin 3 (by norm_num) (by norm_num),
          hmin 4 (by norm_num) (by norm_num),
          hmin 5 (by norm_num) (by norm_num),
          hmin 6 (by norm_num) (by norm_num)]
    rw [findCommitSha_no_exact _ _ h0, hb]
  · intro δ sha h0 hback hδ1 hδ7 hhit hmin
    have hb : searchOffsets.findSome?
        (fun k => env.commits.lookup (d - k)) = none := by
      rw [hso]
      apply findSome?_eq_none_of
      intro x hx
      fin_cases hx <;> exact hback _ (by norm_num) (by norm_num)
    have hf : searchOffsets.findSome?
        (fun k => env.commits.lookup (d + k)) = some sha := by
      rw [hso]
      interval_cases δ
      · simp [List.findSome?_cons, hhit]
      · simp [List.findSome?_cons, hhit,
          hmin 1 (by norm_num) (by norm_num)]
      · simp [List.findSome?_cons, hhit,
          hmin 1 (by norm_num) (by norm_num),
          hmin 2 (by norm_num) (by norm_num)]
      · simp [List.findSome?_cons, hhit,
          hmin 1 (by norm_num) (by norm_num),
          hmin 2 (by norm_num) (by norm_num),
          hmin 3 (by norm_num) (by norm_num)]
      · simp [List.findSome?_cons, hhit,
          hmin 1 (by norm_num) (by norm_num),
          hmin 2 (by norm_num) (by norm_num),
          hmin 3 (by norm_num) (by norm_num),
          hmin 4 (by norm_num) (by norm_num)]
      · simp [List.findSome?_cons, hhit,
          hmin 1 (by norm_num) (by norm_num),
          hmin 2 (by norm_num) (by norm_num),
          hmin 3 (by norm_num) (by norm_num),
          hmin 4 (by norm_num) (by norm_num),
          hmin 5 (by norm_num) (by norm_num)]
      · simp [List.findSome?_cons, hhit,
          hmin 1 (by norm_num) (by norm_num),
          hmin 2 (by norm_num) (by norm_num),
          hmin 3 (by norm_num) (by norm_num),
          hmin 4 (by norm_num) (by norm_num),
          hmin 5 (by norm_num) (by norm_num),
          hmin 6 (by norm_num) (by norm_num)]
    rw [findCommitSha_no_exact _ _ h0, hb, hf]
  · intro h0 hback hfwd
    have hb : searchOffsets.findSome?
        (fun k => env.commits.lookup (d - k)) = none := by
      rw [hso]
      apply findSome?_eq_none_of
      intro x hx
      fin_cases hx <;> exact hback _ (by norm_num) (by norm_num)
    have hf : searchOffsets.findSome?
        (fun k => env.commits.lookup (d + k)) = none := by
      rw [hso]
      apply findSome?_eq_none_of
      intro x hx
      fin_cases hx <;> exact hfwd _ (by norm_num) (by norm_num)
    have hnone : findCommitSha env.commits d = none := by
      rw [findCommitSha_no_exact _ _ h0, hb, hf]
    refine ⟨hnone, ?_⟩
    rw [histTable, hnone]
    rfl
  · intro row hrd hh hty hname horig
    have hh2 : histTable env row.trade_date = none := by
      rw [hrd]
      exact hh
    rw [valueOne_pick2025_no_hist env row hh2 hty hname horig]
    rfl
  · intro row hrd hh h1 h2
    have hh2 : histTable env row.trade_date = none := by
      rw [hrd]
      exact hh
    rw [valueOne_player_no_hist env row hh2 h1 h2]
    rfl

/-- Concrete environment for the Claim C6 witness: snapshots 4 and 6 days
before the trade date 9. -/
def envC6w : Env :=
  { df_current := [], commits := [(5, "abcdefghij"), (3, "xyz")],
    fetchCommit := fun _ => none, lineage := [], projections := [] }

/-- Claim C6 witness: with snapshots on days 5 and 3 and a trade on day 9,
the backward scan selects day 5 (offset 4, the nearest earlier snapshot
in the window). -/
theorem snapshot_search_characterization_witness :
    findCommitSha envC6w.commits 9 = some "abcdefghij" :=
  (snapshot_search_characterization envC6w 9).2.1 4 "abcdefghij"
    (by decide) (by decide) (by decide) (by decide)
    (fun ε h1 h2 => by interval_cases ε <;> decide)

end TradeValuation
